import Mathlib

/-!
Shallow embedding of the backup-compliance pipeline of the sl2 repository:
the streamlit status formatters (`backup_formatter.py`,
`backup_status/backup_status_column.py`, `backup_status/backup_status_pie_chart.py`,
`backup_status/backup_status_bar_chart.py`) and the two sync workers
(`easynet_worker.py`, `s3_worker.py`).

Python dicts are modelled as insertion-ordered association lists, JSON scalars
as structured values, floats as rationals extended with an infinity marker
(`float('inf')` is used by the code as a default), and exception-raising code
as functions into `Except`-style result types.
-/

namespace SL2

/-- First-match association-list lookup (Python `d[k]` / `d.get(k)`; dict keys
are unique, so first match is the dict entry). -/
def alookup {β : Type} (k : String) : List (String × β) → Option β
  | [] => none
  | (k', v) :: rest => if k' = k then some v else alookup k rest

/-- Python `d[k] = v`: replace in place when the key exists (dicts keep
insertion order on update), append otherwise. -/
def dictSet {β : Type} (m : List (String × β)) (k : String) (v : β) : List (String × β) :=
  match m with
  | [] => [(k, v)]
  | (k', v') :: rest => if k' = k then (k, v) :: rest else (k', v') :: dictSet rest k v

/-! ## Float values with infinity

`backup_formatter.py` defaults a missing or unparseable `age_factor` to
`float('inf')`; comparisons and `max` then operate on ℝ ∪ … ∪ ∞.  We model the
values that actually occur as rationals plus an infinity marker. -/

/-- A float age factor: a finite value or `float('inf')`. -/
inductive AF where
  | val (q : ℚ)
  | inf
  deriving DecidableEq

/-- Python `max` on floats including `inf`. -/
def AF.maxv : AF → AF → AF
  | .inf, _ => .inf
  | .val _, .inf => .inf
  | .val a, .val b => .val (Max.max a b)

/-! ## JSON field values of one backup entry

An entry of `backup_list` is an arbitrary JSON value; the code probes it with
`.get` and `isinstance` and parses `date` with `datetime.fromisoformat`. -/

/-- Outcome of evaluating an entry's `date` value: `fromisoformat` yields a
timezone-aware datetime (with the given epoch second), a naive one (subtracting
it from `datetime.now(timezone.utc)` raises `TypeError`), raises `ValueError`
(malformed string), or raises `TypeError` (value is not a string). -/
inductive DateV where
  | aware (epoch : ℚ)
  | naive (epoch : ℚ)
  | malformed
  | notString
  deriving DecidableEq

/-- An entry's `max_age` value: a number, or a value whose use in `//` raises
`TypeError`. -/
inductive MaxAgeV where
  | num (q : ℚ)
  | notNum
  deriving DecidableEq

/-- An `age_factor` value: `float(x)` yields a number or raises
(`TypeError`/`ValueError`), in which case the code substitutes `inf`. -/
inductive AFV where
  | num (q : ℚ)
  | notNum
  deriving DecidableEq

/-- An `age_info` value: a dict (with an optional `age_factor` key) or a
non-dict, which `backup_formatter.py` replaces by `{}`. -/
inductive AgeInfoV where
  | dictV (age_factor : Option AFV)
  | nondict
  deriving DecidableEq

/-- One element of `backup_list`, as probed by the various views.  `etype`
models the `type` key (`none` = absent or `null`).  A `none` field is an
absent key. -/
structure Entry where
  etype : Option String := none
  age_info : Option AgeInfoV := none
  date : Option DateV := none
  max_age : Option MaxAgeV := none
  deriving DecidableEq

/-- The value of a `backup_data` / `backup_json_data` key: a dict with an
optional `backup_list` (a list whose elements may be non-dicts, modelled as
`none`) plus a flag recording whether the dict holds any other keys (which
only matters for Python truthiness). -/
structure BackupData where
  backup_list : Option (List (Option Entry)) := none
  extraKeys : Bool := false
  deriving DecidableEq

/-- One value of the `backups` mapping (what `s3_worker` stores per hostname,
as read back by the views).  `valid_schema` distinguishes an absent key
(`none`) from a key holding `null` (`some none`).  `extraKeys` records
whether the dict holds further, unmodelled keys (Python truthiness only). -/
structure BackupInfo where
  device_class : Option String := none
  vendor : Option String := none
  schema : Option Bool := none
  valid_schema : Option (Option Bool) := none
  backup_data : Option BackupData := none
  backup_json_data : Option BackupData := none
  extraKeys : Bool := false
  deriving DecidableEq

/-- The `backups` argument of the view functions: hostname → info dict. -/
abbrev Backups := List (String × BackupInfo)

/-- Python truthiness of a `BackupInfo` dict: non-empty. -/
def truthyInfo (i : BackupInfo) : Bool :=
  i.device_class.isSome || i.vendor.isSome || i.schema.isSome || i.valid_schema.isSome ||
    i.backup_data.isSome || i.backup_json_data.isSome || i.extraKeys

/-- Python truthiness of a `BackupData` dict: non-empty. -/
def truthyData (d : BackupData) : Bool :=
  d.backup_list.isSome || d.extraKeys

/-! ## backup_formatter.py : get_backup_status_info -/

/-- Result dict of `get_backup_status_info`. -/
structure StatusInfo where
  status : ℕ
  type_statuses : List (String × ℕ)
  worst_status : ℕ
  deriving DecidableEq

/-- `DEFAULT_STATUS` of `get_backup_status_info`. -/
def DEFAULT_STATUS : StatusInfo :=
  { status := 5, type_statuses := [], worst_status := 5 }

/-- `float(age_info.get('age_factor', float('inf')))` with
`TypeError`/`ValueError` mapped to `inf` (lines 56-63 of backup_formatter.py). -/
def entryAgeFactor (e : Entry) : AF :=
  match e.age_info with
  | some (.dictV (some (.num q))) => .val q
  | some (.dictV (some .notNum)) => .inf
  | some (.dictV none) => .inf
  | some .nondict => .inf
  | none => .inf

/-- `current_worst = type_age_factors.get(backup_type, -1);
type_age_factors[backup_type] = max(current_worst, age_factor)`. -/
def dictSetMax (m : List (String × AF)) (k : String) (af : AF) : List (String × AF) :=
  match m with
  | [] => [(k, AF.maxv (.val (-1)) af)]
  | (k', v) :: rest =>
      if k' = k then (k', AF.maxv v af) :: rest else (k', v) :: dictSetMax rest k af

/-- One step of the `for backup in backup_list` loop of
`get_backup_status_info` (lines 48-67): skip non-dicts and entries with a
falsy `type`, otherwise fold the entry's age factor into the per-type map. -/
def collectStep (m : List (String × AF)) (oe : Option Entry) : List (String × AF) :=
  match oe with
  | none => m
  | some e =>
      match e.etype with
      | none => m
      | some t => if t = "" then m else dictSetMax m t (entryAgeFactor e)

/-- The `type_age_factors` dict built by `get_backup_status_info`. -/
def collectTypeAgeFactors (entries : List (Option Entry)) : List (String × AF) :=
  entries.foldl collectStep []

/-- The age-factor → status tier mapping of `get_backup_status_info`
(lines 79-90): closed-lower-bound buckets, `inf` falling into the final
`else` (status 5). -/
def statusOfAgeFactor : AF → ℕ
  | .inf => 5
  | .val q =>
      if q < 1 then 0
      else if q < 2 then 1
      else if q < 3 then 2
      else if q < 4 then 3
      else if q < 5 then 4
      else 5

/-- The body of `get_backup_status_info` once the device's info dict is in
hand (backup_formatter.py lines 33-99): the early-return cascade for falsy
info / `backup_data` / `backup_list` / `type_age_factors`, then the per-type
statuses and their running maximum. -/
def statusOfInfo (info : BackupInfo) : StatusInfo :=
  if truthyInfo info = false then DEFAULT_STATUS
  else
    match info.backup_data with
    | none => DEFAULT_STATUS
    | some bd =>
        if truthyData bd = false then DEFAULT_STATUS
        else
          match bd.backup_list with
          | none => DEFAULT_STATUS
          | some entries =>
              if entries.isEmpty then DEFAULT_STATUS
              else
                if (collectTypeAgeFactors entries).isEmpty then DEFAULT_STATUS
                else
                  { status :=
                      ((collectTypeAgeFactors entries).map
                        (fun p => (p.1, statusOfAgeFactor p.2))).foldl
                        (fun acc p => Max.max acc p.2) 0,
                    type_statuses :=
                      (collectTypeAgeFactors entries).map
                        (fun p => (p.1, statusOfAgeFactor p.2)),
                    worst_status :=
                      ((collectTypeAgeFactors entries).map
                        (fun p => (p.1, statusOfAgeFactor p.2))).foldl
                        (fun acc p => Max.max acc p.2) 0 }

/-- `get_backup_status_info` of backup_formatter.py: per-type worst age
factor, then per-type status and the overall maximum status.  The `hostname
not in backups` early return is the lookup's `none` case. -/
def get_backup_status_info (hostname : String) (backups : Backups) : StatusInfo :=
  match alookup hostname backups with
  | none => DEFAULT_STATUS
  | some info => statusOfInfo info

/-! ## backup_status_column.py -/

/-- An int-or-`float('inf')` value: `worst_age_status` of
`format_backup_status_value` starts at `float('inf')` and is `min`-folded with
integer age statuses. -/
inductive WInt where
  | val (n : ℤ)
  | inf
  deriving DecidableEq

/-- Python `min` over ints and `inf`. -/
def WInt.minv : WInt → WInt → WInt
  | .inf, b => b
  | .val a, .inf => .val a
  | .val a, .val b => .val (Min.min a b)

/-- Python `w < k` for an int-or-inf left operand. -/
def WInt.ltInt (w : WInt) (k : ℤ) : Bool :=
  match w with
  | .inf => false
  | .val n => n < k

/-- Python `str()` of the value: `'inf'` or the integer's digits. -/
def WInt.pyStr : WInt → String
  | .inf => "inf"
  | .val n => toString n

/-- `get_emoji_color` of backup_status_column.py. -/
def get_emoji_color (s : ℤ) : String :=
  if s = 0 then "🟢"
  else if s = 1 then "🟡"
  else if s = 2 then "🟠"
  else if s = 3 then "🔴"
  else if s = 4 then "🟣"
  else if s = 5 then "⚫"
  else if s = -1 then "⏰"
  else if s = -2 then "⚪"
  else if s = -3 then "❌"
  else "❓"

/-- Outcome of `get_backup_age_status(backup_date_str, max_age)`:
`int(((now - fromisoformat(s)).total_seconds()) // max_age)`, or the exception
it raises (`ValueError` from `fromisoformat`, `TypeError` from parsing a
non-string / subtracting a naive datetime / floor-dividing by a non-number,
`ZeroDivisionError` for `max_age == 0`). -/
inductive AgeStatusR where
  | ok (n : ℤ)
  | valueError
  | typeError
  | zeroDiv
  deriving DecidableEq

/-- `get_backup_age_status` of backup_status_column.py, relative to the
current epoch second `now`. -/
def get_backup_age_status (now : ℚ) (d : DateV) (ma : MaxAgeV) : AgeStatusR :=
  match d with
  | .malformed => .valueError
  | .notString => .typeError
  | .naive _ => .typeError
  | .aware t =>
      match ma with
      | .notNum => .typeError
      | .num m => if m = 0 then .zeroDiv else .ok (Int.floor ((now - t) / m))

/-- Evaluation of one `for backup in backup_list` iteration of
`format_backup_status_value`: Python evaluates `backup['date']` and
`backup['max_age']` (a `KeyError`, like every exception other than
`ValueError`, reaches the `except Exception` arm whose `st.error` call raises
`NameError`: the module never imports streamlit), then calls
`get_backup_age_status`. -/
inductive ColEval where
  | ok (n : ℤ)
  | valueError
  | nameError
  deriving DecidableEq

/-- One loop iteration of `format_backup_status_value` (lines 37-45). -/
def colEntryStatus (now : ℚ) (oe : Option Entry) : ColEval :=
  match oe with
  | none => .nameError
  | some e =>
      match e.date, e.max_age with
      | none, _ => .nameError
      | some _, none => .nameError
      | some d, some ma =>
          match get_backup_age_status now d ma with
          | .ok n => .ok n
          | .valueError => .valueError
          | .typeError => .nameError
          | .zeroDiv => .nameError

/-- The final emoji/text of `format_backup_status_value` (lines 47-58). -/
def colFinal (worst : WInt) : String :=
  if worst.ltInt 1 then get_emoji_color 0 ++ " OK"
  else if worst.ltInt 2 then get_emoji_color 1 ++ " Warning"
  else if worst.ltInt 3 then get_emoji_color 2 ++ " Attention"
  else if worst.ltInt 4 then get_emoji_color 3 ++ " Severe"
  else if worst.ltInt 5 then get_emoji_color 4 ++ " Critical"
  else get_emoji_color 5 ++ " Failure (" ++ worst.pyStr ++ ")"

/-- The backup-list loop of `format_backup_status_value`: `min`-fold the age
statuses; a `ValueError` returns the bad-date string for the whole device; any
other exception escapes as `NameError` (modelled as `.error ()`). -/
def colLoop (now : ℚ) : List (Option Entry) → WInt → Except Unit String
  | [], worst => .ok (colFinal worst)
  | oe :: rest, worst =>
      match colEntryStatus now oe with
      | .ok n => colLoop now rest (worst.minv (.val n))
      | .valueError => .ok (get_emoji_color (-1) ++ " Bad date format")
      | .nameError => .error ()

/-- `format_backup_status_value` of backup_status_column.py. -/
def format_backup_status_value (now : ℚ) (hostname : String) (backups : Backups) :
    Except Unit String :=
  match alookup hostname backups with
  | none => .ok (get_emoji_color (-3) ++ " No backup.json")
  | some info =>
      match info.valid_schema.getD (some true) with
      | none => .ok (get_emoji_color (-2) ++ " Bad backup.json")
      | some false => .ok (get_emoji_color (-2) ++ " Bad backup.json")
      | some true =>
          let entries := ((info.backup_json_data.getD {}).backup_list).getD []
          colLoop now entries .inf

/-! ## backup_status_pie_chart.py / backup_status_bar_chart.py -/

/-- Exceptions that escape the chart value functions (their `except` clause
catches only `ValueError` and `TypeError`). -/
inductive PyErr where
  | keyError
  | zeroDiv
  deriving DecidableEq

/-- Outcome of one loop iteration of a chart value function. -/
inductive ChartEval where
  | ok (n : ℤ)
  | caught
  | uncaught (e : PyErr)
  deriving DecidableEq

/-- One `for backup in backup_list` iteration of
`backup_status_pie_chart_value` (lines 30-38): `backup['date']` is parsed
first (`KeyError` escapes; `ValueError`/`TypeError` are caught), then the age
is floor-divided by `backup['max_age']` (`KeyError`/`ZeroDivisionError`
escape, `TypeError` is caught). -/
def pieEntryStatus (now : ℚ) (oe : Option Entry) : ChartEval :=
  match oe with
  | none => .caught
  | some e =>
      match e.date with
      | none => .uncaught .keyError
      | some .malformed => .caught
      | some .notString => .caught
      | some (.naive _) => .caught
      | some (.aware t) =>
          match e.max_age with
          | none => .uncaught .keyError
          | some .notNum => .caught
          | some (.num m) =>
              if m = 0 then .uncaught .zeroDiv
              else .ok (Int.floor ((now - t) / m))

/-- The `max`-fold loop of `backup_status_pie_chart_value`. -/
def pieLoop (now : ℚ) : List (Option Entry) → ℤ → Except PyErr ℤ
  | [], worst => .ok (Min.min 5 worst)
  | oe :: rest, worst =>
      match pieEntryStatus now oe with
      | .ok n => pieLoop now rest (Max.max worst n)
      | .caught => .ok (-1)
      | .uncaught err => .error err

/-- `backup_status_pie_chart_value` of backup_status_pie_chart.py. -/
def backup_status_pie_chart_value (now : ℚ) (hostname : String) (backups : Backups) :
    Except PyErr ℤ :=
  match alookup hostname backups with
  | none => .ok (-3)
  | some info =>
      match info.valid_schema.getD none with
      | none => .ok (-2)
      | some false => .ok (-2)
      | some true =>
          match info.backup_json_data with
          | none => .error .keyError
          | some bd =>
              match bd.backup_list with
              | none => .error .keyError
              | some entries => pieLoop now entries 0

/-- One `for backup in backup_list` iteration of
`backup_status_bar_chart_value` (lines 30-38 of backup_status_bar_chart.py;
the code is the same as the pie chart's). -/
def barEntryStatus (now : ℚ) (oe : Option Entry) : ChartEval :=
  match oe with
  | none => .caught
  | some e =>
      match e.date with
      | none => .uncaught .keyError
      | some .malformed => .caught
      | some .notString => .caught
      | some (.naive _) => .caught
      | some (.aware t) =>
          match e.max_age with
          | none => .uncaught .keyError
          | some .notNum => .caught
          | some (.num m) =>
              if m = 0 then .uncaught .zeroDiv
              else .ok (Int.floor ((now - t) / m))

/-- The `max`-fold loop of `backup_status_bar_chart_value`. -/
def barLoop (now : ℚ) : List (Option Entry) → ℤ → Except PyErr ℤ
  | [], worst => .ok (Min.min 5 worst)
  | oe :: rest, worst =>
      match barEntryStatus now oe with
      | .ok n => barLoop now rest (Max.max worst n)
      | .caught => .ok (-1)
      | .uncaught err => .error err

/-- `backup_status_bar_chart_value` of backup_status_bar_chart.py. -/
def backup_status_bar_chart_value (now : ℚ) (hostname : String) (backups : Backups) :
    Except PyErr ℤ :=
  match alookup hostname backups with
  | none => .ok (-3)
  | some info =>
      match info.valid_schema.getD none with
      | none => .ok (-2)
      | some false => .ok (-2)
      | some true =>
          match info.backup_json_data with
          | none => .error .keyError
          | some bd =>
              match bd.backup_list with
              | none => .error .keyError
              | some entries => barLoop now entries 0

/-! ## The Redis snapshot store and the two workers -/

/-- The key-value store: key → stored string value. -/
abbrev Store := List (String × String)

/-- A primitive store operation issued by a worker: `redis_client.delete(*keys)`
or `redis_client.set(key, value)`. -/
inductive RedisOp where
  | del (keys : List String)
  | set (key : String) (value : String)
  deriving DecidableEq

/-- `redis_client.set`: overwrite in place or append. -/
def setKey (s : Store) (k v : String) : Store :=
  match s with
  | [] => [(k, v)]
  | (k', v') :: rest => if k' = k then (k, v) :: rest else (k', v') :: setKey rest k v

/-- Apply one store operation. -/
def applyOp (s : Store) : RedisOp → Store
  | .del ks => s.filter (fun p => !(ks.contains p.1))
  | .set k v => setKey s k v

/-- Apply a sequence of store operations; intermediate states are what a
concurrent reader can observe. -/
def applyOps (s : Store) (ops : List RedisOp) : Store :=
  ops.foldl applyOp s

/-- A device record fetched from EasyNet: its `hostname` plus the rest of the
JSON object, kept opaque. -/
structure EasyDevice where
  hostname : String
  blob : String
  deriving DecidableEq

/-- Does the first character list start with the second? -/
def startsWithChars : List Char → List Char → Bool
  | _, [] => true
  | [], _ :: _ => false
  | c :: cs, d :: ds => if c = d then startsWithChars cs ds else false

/-- The Redis glob `device:*`: keys starting with `device:`. -/
def isDeviceKey (k : String) : Bool :=
  startsWithChars k.toList "device:".toList

/-- `redis_client.keys("device:*")` over the current store. -/
def deviceKeys (store : Store) : List String :=
  (store.map Prod.fst).filter isDeviceKey

/-- The operations issued by `store_easynet_data_in_redis` (easynet_worker.py
lines 89-103): delete every existing `device:*` key, then set one key per
device.  `ser` stands for `json.dumps` on a device record. -/
def easynetPublishOps (ser : EasyDevice → String) (devices : List EasyDevice)
    (store : Store) : List RedisOp :=
  (if (deviceKeys store).isEmpty then [] else [RedisOp.del (deviceKeys store)]) ++
    devices.map (fun d => RedisOp.set ("device:" ++ d.hostname) (ser d))

/-- `store_easynet_data_in_redis`: the store after all operations ran. -/
def store_easynet_data_in_redis (ser : EasyDevice → String) (devices : List EasyDevice)
    (store : Store) : Store :=
  applyOps store (easynetPublishOps ser devices store)

/-- `get_easynet_data` (easynet_worker.py lines 54-87): every failure path
(production exception, missing `data.json`, undecodable JSON) returns `[]`. -/
def get_easynet_data (fetch : Except Unit (List EasyDevice)) : List EasyDevice :=
  match fetch with
  | .ok ds => ds
  | .error _ => []

/-- One iteration of the easynet worker's main loop: fetch, then store. -/
def easynet_worker_iteration (ser : EasyDevice → String) (fetch : Except Unit (List EasyDevice))
    (store : Store) : Store :=
  store_easynet_data_in_redis ser (get_easynet_data fetch) store

/-! ## s3_worker.py -/

/-- Helper of `pySplitSlash`: accumulate the current segment (in reverse)
until the separator. -/
def splitSlashAux : List Char → List Char → List String
  | [], acc => [String.mk acc.reverse]
  | c :: cs, acc =>
      if c = '/' then String.mk acc.reverse :: splitSlashAux cs []
      else splitSlashAux cs (c :: acc)

/-- Python `key.split('/')` (single-character separator, no maxsplit). -/
def pySplitSlash (s : String) : List String :=
  splitSlashAux s.toList []

/-- An opaque JSON document fetched from S3 (a template or a backup.json):
`truthy` is its Python truthiness, `tag` distinguishes distinct documents. -/
structure JContent where
  truthy : Bool
  tag : ℕ
  deriving DecidableEq

/-- One object of the S3 listing: its key and the result of
`get_s3_file_content` on it (`none` models the function's `None` on any
fetch/decode error). -/
structure S3Obj where
  key : String
  content : Option JContent
  deriving DecidableEq

/-- The `templates` dict built by the first loop of `get_s3_backups_data`
(s3_worker.py lines 84-92): keys splitting as
`[root, device_class, vendor, 'template.json']` with truthy content register
`templates[device_class + '/' + vendor]`. -/
def templatesStep (templates : List (String × JContent)) (obj : S3Obj) :
    List (String × JContent) :=
  match pySplitSlash obj.key with
  | [_, dc, v, fname] =>
      if fname = "template.json" then
        match obj.content with
        | some c => if c.truthy then dictSet templates (dc ++ "/" ++ v) c else templates
        | none => templates
      else templates
  | _ => templates

/-- The schema registry of one sync pass. -/
def templatesOf (listing : List S3Obj) : List (String × JContent) :=
  listing.foldl templatesStep []

/-- The per-hostname dict stored by `get_s3_backups_data`
(s3_worker.py lines 106-120). -/
structure S3Record where
  device_class : String
  vendor : String
  schema : Bool
  valid_schema : Option Bool
  backup_json_data : JContent
  deriving DecidableEq

/-- The second loop of `get_s3_backups_data` (lines 94-120): keys splitting as
`[root, device_class, vendor, hostname, 'backup.json']` with truthy content
produce a record; when a template is registered for `device_class/vendor` the
payload is validated against it (`validate` stands for
`jsonschema.validate`, `true` = no `ValidationError`), otherwise
`valid_schema` stays `None`. -/
def backupsStep (validate : JContent → JContent → Bool)
    (templates : List (String × JContent)) (backups : List (String × S3Record))
    (obj : S3Obj) : List (String × S3Record) :=
  match pySplitSlash obj.key with
  | [_, dc, v, h, fname] =>
      if fname = "backup.json" then
        match obj.content with
        | some bd =>
            if bd.truthy then
              match alookup (dc ++ "/" ++ v) templates with
              | some tpl =>
                  dictSet backups h
                    { device_class := dc, vendor := v, schema := true,
                      valid_schema := some (validate bd tpl), backup_json_data := bd }
              | none =>
                  dictSet backups h
                    { device_class := dc, vendor := v, schema := false,
                      valid_schema := none, backup_json_data := bd }
            else backups
        | none => backups
      else backups
  | _ => backups

/-- `get_s3_backups_data` of s3_worker.py: build the template registry from
the listing, then the per-hostname backups dict. -/
def get_s3_backups_data (validate : JContent → JContent → Bool) (listing : List S3Obj) :
    List (String × S3Record) :=
  listing.foldl (backupsStep validate (templatesOf listing)) []

/-- The operations issued by `store_s3_data_in_redis` (s3_worker.py lines
171-183): a single `set` of the serialized whole document under one key. -/
def s3PublishOps (serialized redis_key : String) : List RedisOp :=
  [RedisOp.set redis_key serialized]

/-- `store_s3_data_in_redis`: the store after the single operation ran.
`serialized` stands for `json.dumps(data)`. -/
def store_s3_data_in_redis (serialized redis_key : String) (store : Store) : Store :=
  applyOps store (s3PublishOps serialized redis_key)

/-- The `s3_backups` part of one iteration of the s3 worker's main loop
(lines 185-195): `get_s3_backups_data` returns `{}` on a `ClientError`
(lines 123-125), and the result is stored unconditionally.  `dump` stands for
`json.dumps` on the backups dict. -/
def s3_worker_store_backups (dump : List (String × S3Record) → String)
    (fetch : Except Unit (List (String × S3Record))) (store : Store) : Store :=
  store_s3_data_in_redis (dump (match fetch with | .ok b => b | .error _ => [])) "s3_backups" store

/-- Does a list of operations publish as one serialized value under a single
key? -/
def isSingleKeyWrite : List RedisOp → Bool
  | [RedisOp.set _ _] => true
  | _ => false

/-! ## Concrete example inputs used by witnesses and counterexamples -/

/-- A fresh artifact of type `config` (age 0 at `now = 1000000`). -/
def freshEntry : Entry :=
  { etype := some "config", date := some (.aware 1000000), max_age := some (.num 100) }

/-- A stale artifact of type `config` (age 1000000 s, `max_age` 100 s:
age status 10000, far beyond FAILURE). -/
def staleEntry : Entry :=
  { etype := some "config", date := some (.aware 0), max_age := some (.num 100) }

/-- An artifact of type `config` whose `date` does not parse. -/
def badDateEntry : Entry :=
  { etype := some "config", date := some .malformed, max_age := some (.num 100) }

/-- A `config` artifact with `age_factor` 0 (for `get_backup_status_info`). -/
def freshAFEntry : Entry :=
  { etype := some "config", age_info := some (.dictV (some (.num 0))) }

/-- A `config` artifact with `age_factor` 10000 (for `get_backup_status_info`). -/
def staleAFEntry : Entry :=
  { etype := some "config", age_info := some (.dictV (some (.num 10))) }

/-- A `config` artifact whose `age_factor` does not parse as a float. -/
def badAFEntry : Entry :=
  { etype := some "config", age_info := some (.dictV (some .notNum)) }

/-- A backups map whose single device has one far-too-old `config` artifact:
`get_backup_status_info` classifies it FAILURE (5). -/
def exampleFailBackups : Backups :=
  [("r1", { backup_data := some { backup_list := some [some staleAFEntry] } })]

/-- Input for the column view: one OK and one FAILURE-aged artifact of the
same type (`valid_schema` key absent, so its `True` default applies). -/
def mixedColumnBackups : Backups :=
  [("r1", { backup_json_data := some { backup_list := some [some freshEntry, some staleEntry] } })]

/-- The same two-artifact situation expressed with precomputed age factors,
as `get_backup_status_info` consumes it. -/
def mixedFormatterBackups : Backups :=
  [("r1", { backup_data := some { backup_list := some [some freshAFEntry, some staleAFEntry] } })]

/-! ## C1 -/

/-- A device whose single backup is fresh and whose payload validated. -/
def schemaTrueInfo : BackupInfo :=
  { valid_schema := some (some true),
    backup_json_data := some { backup_list := some [some freshEntry] } }

/-- The same device with the validation outcome flipped to `False`. -/
def schemaFalseInfo : BackupInfo :=
  { schemaTrueInfo with valid_schema := some (some false) }

/-- Replace the `valid_schema` field, leaving everything else unchanged. -/
def setValidSchema (i : BackupInfo) (v : Option (Option Bool)) : BackupInfo :=
  { i with valid_schema := v }

/-- One good and one unparseable-date artifact, good one first. -/
def badDateBackups : Backups :=
  [("r1", { backup_json_data := some { backup_list := some [some freshEntry, some badDateEntry] } })]

/-- The same device without the unparseable artifact. -/
def goodOnlyBackups : Backups :=
  [("r1", { backup_json_data := some { backup_list := some [some freshEntry] } })]

/-- A store holding one previously published device snapshot entry. -/
def oldStore : Store := [("device:r1", "old")]

/-- Two fetched devices. -/
def twoDevices : List EasyDevice :=
  [{ hostname := "r1", blob := "a" }, { hostname := "r2", blob := "b" }]

/-- The operation sequence the easynet worker issues to publish `twoDevices`
over `oldStore`. -/
def easynetOpsExample : List RedisOp :=
  easynetPublishOps (fun d => d.blob) twoDevices oldStore

/-- First component of a `set` operation, if any. -/
def setOpKey : RedisOp → Option String
  | .set k _ => some k
  | .del _ => none

/-- `jsonschema.validate` that accepts everything. -/
def exValidate : JContent → JContent → Bool := fun _ _ => true

/-- A listing with one template and one backup under the same
class/vendor path. -/
def exListing : List S3Obj :=
  [ { key := "backups/cls/vnd/template.json", content := some { truthy := true, tag := 0 } },
    { key := "backups/cls/vnd/r1/backup.json", content := some { truthy := true, tag := 1 } } ]

/-- The record `get_s3_backups_data exValidate exListing` produces for `r1`. -/
def exRecord : S3Record :=
  { device_class := "cls", vendor := "vnd", schema := true, valid_schema := some true,
    backup_json_data := { truthy := true, tag := 1 } }

/-- C1: for max_age > 0 the age classifier maps `age_factor =
age_seconds / max_age` to the ordered tiers with closed lower bounds —
[0,1) OK(0), [1,2) WARNING(1), [2,3) ATTENTION(2), [3,4) SEVERE(3),
[4,5) CRITICAL(4), [5,∞) FAILURE(5) — and at exactly 1, 2, 3, 4, 5 the
status steps to the next tier. -/
theorem age_classifier_tiers (age_seconds max_age : ℚ) (hm : 0 < max_age) :
    (0 ≤ age_seconds / max_age → age_seconds / max_age < 1 →
      statusOfAgeFactor (.val (age_seconds / max_age)) = 0) ∧
    (1 ≤ age_seconds / max_age → age_seconds / max_age < 2 →
      statusOfAgeFactor (.val (age_seconds / max_age)) = 1) ∧
    (2 ≤ age_seconds / max_age → age_seconds / max_age < 3 →
      statusOfAgeFactor (.val (age_seconds / max_age)) = 2) ∧
    (3 ≤ age_seconds / max_age → age_seconds / max_age < 4 →
      statusOfAgeFactor (.val (age_seconds / max_age)) = 3) ∧
    (4 ≤ age_seconds / max_age → age_seconds / max_age < 5 →
      statusOfAgeFactor (.val (age_seconds / max_age)) = 4) ∧
    (5 ≤ age_seconds / max_age → statusOfAgeFactor (.val (age_seconds / max_age)) = 5) ∧
    statusOfAgeFactor (.val 1) = 1 ∧ statusOfAgeFactor (.val 2) = 2 ∧
    statusOfAgeFactor (.val 3) = 3 ∧ statusOfAgeFactor (.val 4) = 4 ∧
    statusOfAgeFactor (.val 5) = 5 := by
  refine ⟨?_, ?_, ?_, ?_, ?_, ?_, ?_, ?_, ?_, ?_, ?_⟩ <;>
    first
      | (intro h1 h2
         simp only [statusOfAgeFactor]
         split_ifs <;> first | rfl | linarith)
      | (intro h1
         simp only [statusOfAgeFactor]
         split_ifs <;> first | rfl | linarith)
      | (simp only [statusOfAgeFactor]
         norm_num)

/-- Witness for C1 at `age_seconds = 3`, `max_age = 2` (age factor 3/2,
WARNING tier). -/
theorem age_classifier_tiers_witness :
    (0 : ℚ) < 2 ∧ (1 ≤ (3 : ℚ) / 2) ∧ ((3 : ℚ) / 2 < 2) ∧
      statusOfAgeFactor (.val ((3 : ℚ) / 2)) = 1 :=
  ⟨by norm_num, by norm_num, by norm_num,
    (age_classifier_tiers 3 2 (by norm_num)).2.1 (by norm_num) (by norm_num)⟩

/-! ## C4 -/

/-- C4 (code bug): on a device with two artifacts of the same type, one OK
and one FAILURE-aged, `format_backup_status_value` folds age statuses with
`min` (variable `worst_age_status`, best-wins) and reports `🟢 OK`, while
`get_backup_status_info` — like both chart functions — keeps the per-type
maximum and reports FAILURE (5), as the claim states. -/
theorem min_fold_divergence :
    format_backup_status_value 1000000 "r1" mixedColumnBackups = .ok "🟢 OK" ∧
    get_backup_status_info "r1" mixedFormatterBackups =
      { status := 5, type_statuses := [("config", 5)], worst_status := 5 } := by
  constructor
  · simp [format_backup_status_value, colLoop, colEntryStatus, get_backup_age_status,
      alookup, mixedColumnBackups, freshEntry, staleEntry, colFinal, WInt.minv, WInt.ltInt,
      get_emoji_color]
  · simp [get_backup_status_info, statusOfInfo, alookup, truthyInfo, truthyData,
      mixedFormatterBackups, freshAFEntry, staleAFEntry, collectTypeAgeFactors, collectStep,
      dictSetMax, entryAgeFactor, AF.maxv, statusOfAgeFactor, DEFAULT_STATUS]
    norm_num

/-! ## C3 -/

/-- C3 counterexample: two inputs differing only in the schema-validation
outcome get different statuses from the chart value function — `valid_schema
= False` short-circuits to the Bad-backup marker (-2) before any age-based
classification, while the same backup list with `valid_schema = True` is
classified OK (0). -/
theorem schema_short_circuit_counterexample :
    backup_status_pie_chart_value 1000000 "r1" [("r1", schemaFalseInfo)] = .ok (-2) ∧
    backup_status_pie_chart_value 1000000 "r1" [("r1", schemaTrueInfo)] = .ok 0 ∧
    schemaFalseInfo = { schemaTrueInfo with valid_schema := some (some false) } := by
  refine ⟨?_, ?_, rfl⟩
  · simp [backup_status_pie_chart_value, alookup, schemaFalseInfo, schemaTrueInfo]
  · simp [backup_status_pie_chart_value, alookup, schemaTrueInfo, pieLoop, pieEntryStatus,
      freshEntry]

theorem alookup_map_value {β γ : Type} (f : β → γ) (k : String) (l : List (String × β)) :
    alookup k (l.map (fun p => (p.1, f p.2))) = (alookup k l).map f := by
  induction l with
  | nil => rfl
  | cons p rest ih =>
      simp only [List.map_cons, alookup]
      split <;> simp [ih]

/-- C3 amended: `get_backup_status_info` (which computes `type_statuses`)
never consults the schema-validation outcome — overwriting every record's
`valid_schema` field with any value leaves its result, in particular
`type_statuses`, unchanged.  (The column and chart view functions, by
contrast, short-circuit on a failed or null `valid_schema`; see the
counterexample.) -/
theorem statusOfInfo_bd_none (i : BackupInfo) (h : i.backup_data = none) :
    statusOfInfo i = DEFAULT_STATUS := by
  simp [statusOfInfo, h]

theorem statusOfInfo_setValidSchema (i : BackupInfo) (v : Option (Option Bool)) :
    statusOfInfo (setValidSchema i v) = statusOfInfo i := by
  cases hbd : i.backup_data with
  | none =>
      rw [statusOfInfo_bd_none _ (by simp [setValidSchema, hbd]), statusOfInfo_bd_none _ hbd]
  | some bd =>
      have h1 : truthyInfo (setValidSchema i v) = true := by
        simp [truthyInfo, setValidSchema, hbd]
      have h2 : truthyInfo i = true := by
        simp [truthyInfo, hbd]
      have h3 : (setValidSchema i v).backup_data = some bd := by
        simp [setValidSchema, hbd]
      unfold statusOfInfo
      rw [h1, h2, h3, hbd]

theorem formatter_ignores_schema (hostname : String) (b : Backups) (v : Option (Option Bool)) :
    get_backup_status_info hostname (b.map (fun p => (p.1, setValidSchema p.2 v))) =
      get_backup_status_info hostname b := by
  unfold get_backup_status_info
  rw [alookup_map_value (fun i => setValidSchema i v) hostname b]
  cases halk : alookup hostname b with
  | none => rfl
  | some info =>
      simp only [Option.map_some]
      exact statusOfInfo_setValidSchema info v

/-- Witness for C3 amended at a concrete record and value. -/
theorem formatter_ignores_schema_witness :
    get_backup_status_info "r1"
        (exampleFailBackups.map (fun p => (p.1, setValidSchema p.2 (some (some false))))) =
      get_backup_status_info "r1" exampleFailBackups :=
  formatter_ignores_schema "r1" exampleFailBackups (some (some false))

/-! ## C8 -/

/-- C8 counterexample: in `format_backup_status_value` a single non-parseable
timestamp is not isolated to its artifact — it makes the whole device report
the Bad-date-format marker (not a FAILURE status), discarding the already
computed OK classification of the other artifact, which without the bad
artifact yields `🟢 OK`. -/
theorem bad_date_aborts_device_counterexample :
    format_backup_status_value 1000000 "r1" badDateBackups = .ok "⏰ Bad date format" ∧
    format_backup_status_value 1000000 "r1" goodOnlyBackups = .ok "🟢 OK" := by
  constructor <;>
    simp [format_backup_status_value, colLoop, colEntryStatus, get_backup_age_status,
      alookup, badDateBackups, goodOnlyBackups, freshEntry, badDateEntry, colFinal,
      WInt.minv, WInt.ltInt, get_emoji_color]

theorem AF.maxv_inf_right (a : AF) : a.maxv .inf = .inf := by
  cases a <;> rfl

theorem alookup_dictSetMax_self (m : List (String × AF)) (k : String) (af : AF) :
    alookup k (dictSetMax m k af) =
      some (match alookup k m with
            | some v => v.maxv af
            | none => AF.maxv (.val (-1)) af) := by
  induction m with
  | nil => simp [dictSetMax, alookup]
  | cons p rest ih =>
      by_cases hk : p.1 = k
      · simp [dictSetMax, alookup, hk]
      · simp [dictSetMax, alookup, hk, ih]

theorem alookup_dictSetMax_other (m : List (String × AF)) (k k' : String) (af : AF)
    (h : k' ≠ k) : alookup k' (dictSetMax m k af) = alookup k' m := by
  have hkk : ¬(k = k') := fun hh => h hh.symm
  induction m with
  | nil => simp [dictSetMax, alookup, hkk]
  | cons p rest ih =>
      by_cases hk : p.1 = k
      · subst hk
        simp [dictSetMax, alookup, hkk]
      · by_cases hk' : p.1 = k'
        · simp [dictSetMax, alookup, hk, hk', h]
        · simp [dictSetMax, alookup, hk, hk', ih]

theorem collectStep_none_entry (m : List (String × AF)) : collectStep m none = m := rfl

theorem collectStep_no_type (m : List (String × AF)) (e : Entry) (h : e.etype = none) :
    collectStep m (some e) = m := by
  simp [collectStep, h]

theorem collectStep_empty_type (m : List (String × AF)) (e : Entry)
    (h : e.etype = some "") : collectStep m (some e) = m := by
  simp [collectStep, h]

theorem collectStep_insert (m : List (String × AF)) (e : Entry) (t : String)
    (h : e.etype = some t) (ht : ¬t = "") :
    collectStep m (some e) = dictSetMax m t (entryAgeFactor e) := by
  simp [collectStep, h, ht]

theorem alookup_dictSetMax_inf (m : List (String × AF)) (k : String) :
    alookup k (dictSetMax m k .inf) = some .inf := by
  rw [alookup_dictSetMax_self]
  cases h : alookup k m with
  | none => rfl
  | some v => simp [AF.maxv_inf_right]

/-- A key mapped to `inf` stays mapped to `inf` through the rest of the
collection loop. -/
theorem collect_foldl_inf_preserved (l : List (Option Entry)) (m : List (String × AF))
    (t : String) (h : alookup t m = some .inf) :
    alookup t (l.foldl collectStep m) = some .inf := by
  induction l generalizing m with
  | nil => exact h
  | cons oe rest ih =>
      rw [List.foldl_cons]
      apply ih
      cases oe with
      | none => rw [collectStep_none_entry]; exact h
      | some e =>
          cases he : e.etype with
          | none => rw [collectStep_no_type _ _ he]; exact h
          | some t' =>
              by_cases ht' : t' = ""
              · subst ht'
                rw [collectStep_empty_type _ _ he]
                exact h
              · rw [collectStep_insert _ _ _ he ht']
                by_cases htt : t = t'
                · subst htt
                  rw [alookup_dictSetMax_self, h]
                  rfl
                · rw [alookup_dictSetMax_other _ _ _ _ htt, h]

theorem alookup_dictSetMax_congr (m1 m2 : List (String × AF)) (k : String) (af : AF)
    (t : String) (h : alookup t m1 = alookup t m2) :
    alookup t (dictSetMax m1 k af) = alookup t (dictSetMax m2 k af) := by
  by_cases htk : t = k
  · subst htk
    rw [alookup_dictSetMax_self, alookup_dictSetMax_self, h]
  · rw [alookup_dictSetMax_other _ _ _ _ htk, alookup_dictSetMax_other _ _ _ _ htk, h]

/-- The collection loop's effect on one key is determined by the key's
current binding. -/
theorem collect_foldl_congr (l : List (Option Entry)) (m1 m2 : List (String × AF))
    (t : String) (h : alookup t m1 = alookup t m2) :
    alookup t (l.foldl collectStep m1) = alookup t (l.foldl collectStep m2) := by
  induction l generalizing m1 m2 with
  | nil => exact h
  | cons oe rest ih =>
      rw [List.foldl_cons, List.foldl_cons]
      apply ih
      cases oe with
      | none => rw [collectStep_none_entry, collectStep_none_entry]; exact h
      | some e =>
          cases he : e.etype with
          | none => rw [collectStep_no_type _ _ he, collectStep_no_type _ _ he]; exact h
          | some t' =>
              by_cases ht' : t' = ""
              · subst ht'
                rw [collectStep_empty_type _ _ he, collectStep_empty_type _ _ he]
                exact h
              · rw [collectStep_insert _ _ _ he ht', collectStep_insert _ _ _ he ht']
                exact alookup_dictSetMax_congr _ _ _ _ _ h

/-- C8 amended: in `get_backup_status_info` a non-parseable `age_factor`
IS isolated to its artifact: inserting such an artifact of type `t` anywhere
into the backup list pins type `t` to age factor `inf` — hence status 5
(FAILURE) — and leaves the collected age factor of every other type exactly
as it was without the bad artifact.  (`format_backup_status_value` and the
chart functions instead abort the whole device; see the counterexample.) -/
theorem bad_age_factor_isolated (pre post : List (Option Entry)) (e : Entry)
    (t t' : String) (het : e.etype = some t) (ht : t ≠ "")
    (hbad : entryAgeFactor e = .inf) (ht' : t' ≠ t) :
    (alookup t (collectTypeAgeFactors (pre ++ some e :: post))).map statusOfAgeFactor =
      some 5 ∧
    alookup t' (collectTypeAgeFactors (pre ++ some e :: post)) =
      alookup t' (collectTypeAgeFactors (pre ++ post)) := by
  have hstep : ∀ m : List (String × AF), collectStep m (some e) = dictSetMax m t .inf := by
    intro m
    rw [collectStep_insert _ _ _ het ht, hbad]
  constructor
  · rw [collectTypeAgeFactors, List.foldl_append, List.foldl_cons, hstep]
    rw [collect_foldl_inf_preserved post _ t (alookup_dictSetMax_inf _ t)]
    rfl
  · rw [collectTypeAgeFactors, collectTypeAgeFactors, List.foldl_append, List.foldl_append,
      List.foldl_cons, hstep]
    exact collect_foldl_congr post _ _ t' (alookup_dictSetMax_other _ _ _ _ ht')

/-- Witness for C8 amended: the bad artifact alone pins `config` to status 5
and leaves the (absent) type `other` unaffected. -/
theorem bad_age_factor_isolated_witness :
    badAFEntry.etype = some "config" ∧ "config" ≠ "" ∧
    entryAgeFactor badAFEntry = .inf ∧ "other" ≠ "config" ∧
    ((alookup "config" (collectTypeAgeFactors ([] ++ some badAFEntry :: []))).map
        statusOfAgeFactor = some 5 ∧
      alookup "other" (collectTypeAgeFactors ([] ++ some badAFEntry :: [])) =
        alookup "other" (collectTypeAgeFactors ([] ++ []))) :=
  ⟨rfl, by simp, rfl, by simp,
    bad_age_factor_isolated [] [] badAFEntry "config" "other" rfl (by simp) rfl (by simp)⟩

/-! ## C2 -/

/-- C2 counterexample: an iteration whose fetch fails does NOT leave the
previous snapshot unchanged.  The easynet worker turns every fetch failure
into `[]` and then deletes all existing `device:*` keys (publishing nothing);
the s3 worker turns a `ClientError` into `{}` and overwrites the `s3_backups`
key with the empty document. -/
theorem fetch_failure_counterexample :
    easynet_worker_iteration (fun d => d.blob) (.error ()) oldStore ≠ oldStore ∧
    s3_worker_store_backups (fun _ => "empty") (.error ())
        [("s3_backups", "old-snapshot")] ≠ [("s3_backups", "old-snapshot")] := by
  constructor
  · simp [easynet_worker_iteration, get_easynet_data, store_easynet_data_in_redis,
      easynetPublishOps, deviceKeys, isDeviceKey, startsWithChars, oldStore, applyOps, applyOp]
  · simp [s3_worker_store_backups, store_s3_data_in_redis, s3PublishOps, applyOps, applyOp,
      setKey]

theorem mem_deviceKeys (store : Store) (k : String) :
    k ∈ deviceKeys store ↔ k ∈ store.map Prod.fst ∧ isDeviceKey k := by
  simp [deviceKeys, List.mem_filter]

/-- C2 amended: an iteration whose fetch fails publishes an empty snapshot in
place of the previous one — the easynet worker's resulting store has every
`device:*` entry removed and none written, and the s3 worker's store has the
`s3_backups` key overwritten with the serialization of the empty dict.  Only
the previous non-device keys survive. -/
theorem fetch_failure_publishes_empty (ser : EasyDevice → String)
    (dump : List (String × S3Record) → String) (store store' : Store) :
    easynet_worker_iteration ser (.error ()) store =
      store.filter (fun p => !(isDeviceKey p.1)) ∧
    s3_worker_store_backups dump (.error ()) store' =
      setKey store' "s3_backups" (dump []) := by
  constructor
  · show store_easynet_data_in_redis ser [] store = _
    unfold store_easynet_data_in_redis easynetPublishOps
    by_cases hemp : (deviceKeys store).isEmpty
    · have hnil : deviceKeys store = [] := List.isEmpty_iff.mp hemp
      have hall : ∀ p ∈ store, (!(isDeviceKey p.1)) = true := by
        intro p hp
        have hk : isDeviceKey p.1 = false := by
          by_contra hcon
          have : isDeviceKey p.1 = true := by
            cases hic : isDeviceKey p.1
            · exact absurd hic hcon
            · rfl
          have : p.1 ∈ deviceKeys store :=
            (mem_deviceKeys store p.1).mpr ⟨List.mem_map_of_mem Prod.fst hp, this⟩
          rw [hnil] at this
          exact absurd this (List.not_mem_nil p.1)
        simp [hk]
      rw [hemp]
      simp only [List.map_nil, List.append_nil, applyOps, List.foldl_nil, if_true]
      exact (List.filter_eq_self.mpr hall).symm
    · rw [if_neg (by simp [hemp])]
      simp only [List.map_nil, List.append_nil, applyOps, List.foldl_cons, List.foldl_nil,
        applyOp]
      apply List.filter_congr
      intro p hp
      by_cases hk : isDeviceKey p.1
      · have : p.1 ∈ deviceKeys store :=
          (mem_deviceKeys store p.1).mpr ⟨List.mem_map_of_mem Prod.fst hp, hk⟩
        have hcont : (deviceKeys store).contains p.1 = true := List.elem_iff.mpr this
        rw [hcont, hk]
      · have hnotmem : p.1 ∉ deviceKeys store := by
          intro hmem
          exact hk ((mem_deviceKeys store p.1).mp hmem).2
        have hcont : (deviceKeys store).contains p.1 = false := by
          by_contra hcon
          have : (deviceKeys store).contains p.1 = true := by
            cases hic : (deviceKeys store).contains p.1
            · exact absurd hic hcon
            · rfl
          exact hnotmem (List.elem_iff.mp this)
        have hkf : isDeviceKey p.1 = false := by
          cases hic : isDeviceKey p.1
          · rfl
          · exact absurd hic hk
        rw [hcont, hkf]
  · rfl

/-! ## C5 -/

/-- C5 counterexample: the inventory snapshot is NOT written as one value
under a single key.  Publishing two devices issues a delete plus two sets on
two keys, and a reader between operations observes torn states that are
neither the old snapshot nor the new one. -/
theorem snapshot_not_single_key_counterexample :
    isSingleKeyWrite easynetOpsExample = false ∧
    applyOps oldStore (easynetOpsExample.take 1) ≠ oldStore ∧
    applyOps oldStore (easynetOpsExample.take 1) ≠ applyOps oldStore easynetOpsExample ∧
    applyOps oldStore (easynetOpsExample.take 2) ≠ oldStore ∧
    applyOps oldStore (easynetOpsExample.take 2) ≠ applyOps oldStore easynetOpsExample := by
  refine ⟨?_, ?_, ?_, ?_, ?_⟩ <;>
    simp [easynetOpsExample, easynetPublishOps, twoDevices, oldStore, deviceKeys, isDeviceKey,
      startsWithChars, isSingleKeyWrite, applyOps, applyOp, setKey]

/-- C5 amended: the backup-status snapshot (s3 worker) is written as one
serialized value under a single key, but the inventory snapshot (easynet
worker) is published as one `set` per device — one key per hostname — after
deleting all previous `device:*` keys. -/
theorem snapshot_publish_shape (serialized rkey : String) (ser : EasyDevice → String)
    (devices : List EasyDevice) (store : Store) :
    isSingleKeyWrite (s3PublishOps serialized rkey) = true ∧
    store_s3_data_in_redis serialized rkey store = setKey store rkey serialized ∧
    (easynetPublishOps ser devices store).filterMap setOpKey =
      devices.map (fun d => "device:" ++ d.hostname) := by
  refine ⟨rfl, rfl, ?_⟩
  unfold easynetPublishOps
  rw [List.filterMap_append]
  have h1 : ((if (deviceKeys store).isEmpty then [] else
      [RedisOp.del (deviceKeys store)]).filterMap setOpKey) = [] := by
    split <;> simp [setOpKey]
  rw [h1, List.nil_append, List.filterMap_map]
  have h2 : (setOpKey ∘ fun d => RedisOp.set ("device:" ++ d.hostname) (ser d)) =
      some ∘ fun d => "device:" ++ d.hostname := by
    funext d
    rfl
  rw [h2, List.filterMap_eq_map]

/-! ## C6 / C7 -/

theorem foldl_max_le (l : List (String × ℕ)) (a : ℕ) :
    ∀ p ∈ l, p.2 ≤ l.foldl (fun acc q => Max.max acc q.2) a := by
  induction l generalizing a with
  | nil => intro p hp; exact absurd hp (List.not_mem_nil p)
  | cons q rest ih =>
      intro p hp
      rcases List.mem_cons.mp hp with hq | hrest
      · subst hq
        calc p.2 ≤ Max.max a p.2 := le_max_right a p.2
          _ ≤ rest.foldl (fun acc q => Max.max acc q.2) (Max.max a p.2) :=
              le_foldl_max rest (Max.max a p.2)
      · exact ih (Max.max a q.2) p hrest
where
  le_foldl_max (l : List (String × ℕ)) (a : ℕ) :
      a ≤ l.foldl (fun acc q => Max.max acc q.2) a := by
    induction l generalizing a with
    | nil => exact le_refl a
    | cons q rest ih => exact le_trans (le_max_left a q.2) (ih (Max.max a q.2))

theorem foldl_max_attained (l : List (String × ℕ)) (a : ℕ) :
    l.foldl (fun acc q => Max.max acc q.2) a = a ∨
      ∃ p ∈ l, l.foldl (fun acc q => Max.max acc q.2) a = p.2 := by
  induction l generalizing a with
  | nil => exact Or.inl rfl
  | cons q rest ih =>
      rcases ih (Max.max a q.2) with heq | ⟨p, hp, heq⟩
      · rcases le_total a q.2 with hle | hle
        · right
          refine ⟨q, List.mem_cons_self q rest, ?_⟩
          rw [List.foldl_cons, heq, max_eq_right hle]
        · left
          rw [List.foldl_cons, heq, max_eq_left hle]
      · right
        exact ⟨p, List.mem_cons_of_mem q hp, by rw [List.foldl_cons, heq]⟩

/-- Every outcome of `statusOfInfo` is either the sentinel `DEFAULT_STATUS`
or a record built from a non-empty per-type status list, whose two status
fields are the running maximum of that list. -/
theorem statusOfInfo_cases (i : BackupInfo) :
    statusOfInfo i = DEFAULT_STATUS ∨
      ∃ ts : List (String × ℕ), ts ≠ [] ∧ statusOfInfo i =
        { status := ts.foldl (fun acc p => Max.max acc p.2) 0, type_statuses := ts,
          worst_status := ts.foldl (fun acc p => Max.max acc p.2) 0 } := by
  unfold statusOfInfo
  split
  · exact Or.inl rfl
  · split
    · exact Or.inl rfl
    · split
      · exact Or.inl rfl
      · split
        · exact Or.inl rfl
        · split
          · exact Or.inl rfl
          · split
            · exact Or.inl rfl
            · next entries _ _ htaf =>
                right
                refine ⟨(collectTypeAgeFactors entries).map
                  (fun p => (p.1, statusOfAgeFactor p.2)), ?_, rfl⟩
                intro hnil
                rw [List.map_eq_nil_iff] at hnil
                rw [hnil] at htaf
                simp at htaf

/-- C7: for every record the aggregator produces, `worst_status` is the
maximum of `type_statuses.values()` when `type_statuses` is non-empty (an
upper bound that is attained), and equals the failure sentinel 5 when
`type_statuses` is empty (no artifacts). -/
theorem worst_status_invariant (hostname : String) (b : Backups) :
    ((get_backup_status_info hostname b).type_statuses ≠ [] →
      (∀ p ∈ (get_backup_status_info hostname b).type_statuses,
          p.2 ≤ (get_backup_status_info hostname b).worst_status) ∧
      ∃ p ∈ (get_backup_status_info hostname b).type_statuses,
          p.2 = (get_backup_status_info hostname b).worst_status) ∧
    ((get_backup_status_info hostname b).type_statuses = [] →
      (get_backup_status_info hostname b).worst_status = 5) := by
  have hdef : (DEFAULT_STATUS.type_statuses ≠ [] →
      (∀ p ∈ DEFAULT_STATUS.type_statuses, p.2 ≤ DEFAULT_STATUS.worst_status) ∧
      ∃ p ∈ DEFAULT_STATUS.type_statuses, p.2 = DEFAULT_STATUS.worst_status) ∧
      (DEFAULT_STATUS.type_statuses = [] → DEFAULT_STATUS.worst_status = 5) := by
    constructor
    · intro hne
      exact absurd rfl hne
    · intro _
      rfl
  cases halk : alookup hostname b with
  | none =>
      have hgb : get_backup_status_info hostname b = DEFAULT_STATUS := by
        unfold get_backup_status_info
        rw [halk]
      rw [hgb]
      exact hdef
  | some i =>
      have hgb : get_backup_status_info hostname b = statusOfInfo i := by
        unfold get_backup_status_info
        rw [halk]
      rw [hgb]
      rcases statusOfInfo_cases i with h | ⟨ts, hts, h⟩
      · rw [h]
        exact hdef
      · rw [h]
        constructor
        · intro _
          constructor
          · exact fun p hp => foldl_max_le ts 0 p hp
          · rcases foldl_max_attained ts 0 with heq | ⟨p, hp, heq⟩
            · cases ts with
              | nil => exact absurd rfl hts
              | cons p0 rest =>
                  refine ⟨p0, List.mem_cons_self p0 rest, ?_⟩
                  have h1 := foldl_max_le (p0 :: rest) 0 p0 (List.mem_cons_self p0 rest)
                  rw [heq] at h1
                  show p0.2 = (p0 :: rest).foldl (fun acc q => Max.max acc q.2) 0
                  rw [heq]
                  omega
            · exact ⟨p, hp, heq.symm⟩
        · intro hcon
          exact absurd hcon hts

/-- Witness for C7 on a device whose one stale artifact classifies FAILURE. -/
theorem worst_status_invariant_witness :
    (get_backup_status_info "r1" exampleFailBackups).type_statuses ≠ [] ∧
    ((∀ p ∈ (get_backup_status_info "r1" exampleFailBackups).type_statuses,
        p.2 ≤ (get_backup_status_info "r1" exampleFailBackups).worst_status) ∧
      ∃ p ∈ (get_backup_status_info "r1" exampleFailBackups).type_statuses,
        p.2 = (get_backup_status_info "r1" exampleFailBackups).worst_status) :=
  ⟨by simp [get_backup_status_info, statusOfInfo, alookup, truthyInfo, truthyData,
      exampleFailBackups, staleAFEntry, collectTypeAgeFactors, collectStep, dictSetMax,
      entryAgeFactor, AF.maxv, statusOfAgeFactor, DEFAULT_STATUS],
    (worst_status_invariant "r1" exampleFailBackups).1
      (by simp [get_backup_status_info, statusOfInfo, alookup, truthyInfo, truthyData,
        exampleFailBackups, staleAFEntry, collectTypeAgeFactors, collectStep, dictSetMax,
        entryAgeFactor, AF.maxv, statusOfAgeFactor, DEFAULT_STATUS])⟩

/-- C6: a device with zero backup artifacts gets the dedicated no-backup
sentinel: `get_backup_status_info` returns `DEFAULT_STATUS` (empty
`type_statuses`, worst_status 5) and the column view shows the dedicated
`❌ No backup.json` marker; every zero-classification outcome IS that
sentinel record; and a record whose artifact classified FAILURE carries the
same `worst_status` 5 yet differs from the sentinel — the distinguishing
component is `type_statuses`, not `worst_status`. -/
theorem no_backup_sentinel (now : ℚ) (hostname : String) (b : Backups)
    (hnb : alookup hostname b = none) :
    get_backup_status_info hostname b = DEFAULT_STATUS ∧
    format_backup_status_value now hostname b = .ok (get_emoji_color (-3) ++ " No backup.json") ∧
    DEFAULT_STATUS.type_statuses = [] ∧
    DEFAULT_STATUS.worst_status = 5 ∧
    (∀ h' b', (get_backup_status_info h' b').type_statuses = [] →
        get_backup_status_info h' b' = DEFAULT_STATUS) ∧
    (get_backup_status_info "r1" exampleFailBackups).worst_status =
        DEFAULT_STATUS.worst_status ∧
    get_backup_status_info "r1" exampleFailBackups ≠ DEFAULT_STATUS := by
  refine ⟨?_, ?_, rfl, rfl, ?_, ?_, ?_⟩
  · simp [get_backup_status_info, hnb]
  · simp [format_backup_status_value, hnb]
  · intro h' b' hts
    cases halk : alookup h' b' with
    | none =>
        unfold get_backup_status_info
        rw [halk]
    | some i =>
        have hgb : get_backup_status_info h' b' = statusOfInfo i := by
          unfold get_backup_status_info
          rw [halk]
        rw [hgb] at hts ⊢
        rcases statusOfInfo_cases i with h | ⟨ts, htsne, h⟩
        · exact h
        · rw [h] at hts
          exact absurd hts htsne
  · simp [get_backup_status_info, statusOfInfo, alookup, truthyInfo, truthyData,
      exampleFailBackups, staleAFEntry, collectTypeAgeFactors, collectStep, dictSetMax,
      entryAgeFactor, AF.maxv, statusOfAgeFactor, DEFAULT_STATUS]
    norm_num
  · simp [get_backup_status_info, statusOfInfo, alookup, truthyInfo, truthyData,
      exampleFailBackups, staleAFEntry, collectTypeAgeFactors, collectStep, dictSetMax,
      entryAgeFactor, AF.maxv, statusOfAgeFactor, DEFAULT_STATUS]

/-- Witness for C6 on an empty backups map. -/
theorem no_backup_sentinel_witness :
    alookup "r9" ([] : Backups) = none ∧
    (get_backup_status_info "r9" [] = DEFAULT_STATUS ∧
      format_backup_status_value 0 "r9" [] =
        .ok (get_emoji_color (-3) ++ " No backup.json")) :=
  ⟨rfl, (no_backup_sentinel 0 "r9" [] rfl).1, (no_backup_sentinel 0 "r9" [] rfl).2.1⟩

/-! ## C9 -/

theorem alookup_dictSet_self {β : Type} (m : List (String × β)) (k : String) (v : β) :
    alookup k (dictSet m k v) = some v := by
  induction m with
  | nil => simp [dictSet, alookup]
  | cons p rest ih =>
      by_cases hk : p.1 = k
      · simp [dictSet, alookup, hk]
      · simp [dictSet, alookup, hk, ih]

theorem alookup_dictSet_other {β : Type} (m : List (String × β)) (k k' : String) (v : β)
    (h : k' ≠ k) : alookup k' (dictSet m k v) = alookup k' m := by
  have hkk : ¬(k = k') := fun hh => h hh.symm
  induction m with
  | nil => simp [dictSet, alookup, hkk]
  | cons p rest ih =>
      by_cases hk : p.1 = k
      · subst hk
        simp [dictSet, alookup, hkk]
      · by_cases hk' : p.1 = k'
        · simp [dictSet, alookup, hk, hk', h]
        · simp [dictSet, alookup, hk, hk', ih]

theorem mem_dictSet {β : Type} (m : List (String × β)) (k : String) (v : β) (p : String × β)
    (hp : p ∈ dictSet m k v) : p = (k, v) ∨ p ∈ m := by
  induction m with
  | nil => simpa [dictSet] using hp
  | cons q rest ih =>
      by_cases hk : q.1 = k
      · rw [dictSet, if_pos hk] at hp
        rcases List.mem_cons.mp hp with hpe | hpm
        · exact Or.inl hpe
        · exact Or.inr (List.mem_cons_of_mem q hpm)
      · rw [dictSet, if_neg hk] at hp
        rcases List.mem_cons.mp hp with hpe | hpm
        · exact Or.inr (by rw [hpe]; exact List.mem_cons_self q rest)
        · rcases ih hpm with hh | hh
          · exact Or.inl hh
          · exact Or.inr (List.mem_cons_of_mem q hh)

/-- Fold invariant of the backups loop: every record in the accumulator
reflects its template lookup as the claim describes. -/
theorem backupsStep_inv (validate : JContent → JContent → Bool)
    (templates : List (String × JContent)) (acc : List (String × S3Record)) (obj : S3Obj)
    (hacc : ∀ h r, alookup h acc = some r →
      r.schema = (alookup (r.device_class ++ "/" ++ r.vendor) templates).isSome ∧
      (r.schema = false → r.valid_schema = none) ∧
      (∀ tpl, alookup (r.device_class ++ "/" ++ r.vendor) templates = some tpl →
          r.valid_schema = some (validate r.backup_json_data tpl)))
    (h : String) (r : S3Record)
    (hr : alookup h (backupsStep validate templates acc obj) = some r) :
    r.schema = (alookup (r.device_class ++ "/" ++ r.vendor) templates).isSome ∧
    (r.schema = false → r.valid_schema = none) ∧
    (∀ tpl, alookup (r.device_class ++ "/" ++ r.vendor) templates = some tpl →
        r.valid_schema = some (validate r.backup_json_data tpl)) := by
  unfold backupsStep at hr
  split at hr
  case h_2 => exact hacc h r hr
  case h_1 x0 dc v hname fname hsp =>
      by_cases hfn : fname = "backup.json"
      · rw [if_pos hfn] at hr
        cases hc : obj.content with
        | none =>
            simp only [hc] at hr
            exact hacc h r hr
        | some bd =>
            simp only [hc] at hr
            by_cases htr : bd.truthy
            · rw [if_pos htr] at hr
              cases htpl : alookup (dc ++ "/" ++ v) templates with
              | some tpl =>
                  simp only [htpl] at hr
                  by_cases hh : h = hname
                  · subst hh
                    rw [alookup_dictSet_self] at hr
                    have hrec := Option.some.inj hr
                    subst hrec
                    refine ⟨?_, ?_, ?_⟩
                    · simp [htpl]
                    · intro hfalse
                      simp at hfalse
                    · intro tpl' htpl'
                      simp only at htpl'
                      rw [htpl] at htpl'
                      rw [Option.some.inj htpl']
                  · rw [alookup_dictSet_other _ _ _ _ hh] at hr
                    exact hacc h r hr
              | none =>
                  simp only [htpl] at hr
                  by_cases hh : h = hname
                  · subst hh
                    rw [alookup_dictSet_self] at hr
                    have hrec := Option.some.inj hr
                    subst hrec
                    refine ⟨?_, ?_, ?_⟩
                    · simp [htpl]
                    · intro _
                      rfl
                    · intro tpl' htpl'
                      simp only at htpl'
                      rw [htpl] at htpl'
                      exact absurd htpl' (by simp)
                  · rw [alookup_dictSet_other _ _ _ _ hh] at hr
                    exact hacc h r hr
            · rw [if_neg htr] at hr
              exact hacc h r hr
      · rw [if_neg hfn] at hr
        exact hacc h r hr

theorem backups_foldl_inv (validate : JContent → JContent → Bool)
    (templates : List (String × JContent)) (l : List S3Obj) (acc : List (String × S3Record))
    (hacc : ∀ h r, alookup h acc = some r →
      r.schema = (alookup (r.device_class ++ "/" ++ r.vendor) templates).isSome ∧
      (r.schema = false → r.valid_schema = none) ∧
      (∀ tpl, alookup (r.device_class ++ "/" ++ r.vendor) templates = some tpl →
          r.valid_schema = some (validate r.backup_json_data tpl)))
    (h : String) (r : S3Record)
    (hr : alookup h (l.foldl (backupsStep validate templates) acc) = some r) :
    r.schema = (alookup (r.device_class ++ "/" ++ r.vendor) templates).isSome ∧
    (r.schema = false → r.valid_schema = none) ∧
    (∀ tpl, alookup (r.device_class ++ "/" ++ r.vendor) templates = some tpl →
        r.valid_schema = some (validate r.backup_json_data tpl)) := by
  induction l generalizing acc with
  | nil => exact hacc h r hr
  | cons obj rest ih =>
      rw [List.foldl_cons] at hr
      exact ih (backupsStep validate templates acc obj)
        (fun h' r' hr' => backupsStep_inv validate templates acc obj hacc h' r' hr') hr

/-- Every entry of the template registry comes from a listed object whose key
splits as `[root, device_class, vendor, 'template.json']` with truthy
content. -/
theorem templates_foldl_from (l : List S3Obj) (acc : List (String × JContent))
    (p : String × JContent) (hp : p ∈ l.foldl templatesStep acc) :
    p ∈ acc ∨ ∃ obj ∈ l, ∃ root dc v,
      pySplitSlash obj.key = [root, dc, v, "template.json"] ∧ p.1 = dc ++ "/" ++ v ∧
      obj.content = some p.2 ∧ p.2.truthy = true := by
  induction l generalizing acc with
  | nil => exact Or.inl hp
  | cons obj rest ih =>
      rw [List.foldl_cons] at hp
      rcases ih (templatesStep acc obj) hp with hin | ⟨obj', hobj', hex⟩
      · have hstep : p ∈ templatesStep acc obj → p ∈ acc ∨ ∃ root dc v,
            pySplitSlash obj.key = [root, dc, v, "template.json"] ∧ p.1 = dc ++ "/" ++ v ∧
            obj.content = some p.2 ∧ p.2.truthy = true := by
          intro hmem
          unfold templatesStep at hmem
          split at hmem
          case h_2 => exact Or.inl hmem
          case h_1 root dc v fname hsp =>
              by_cases hfn : fname = "template.json"
              · rw [if_pos hfn] at hmem
                cases hc : obj.content with
                | none =>
                    simp only [hc] at hmem
                    exact Or.inl hmem
                | some c =>
                    simp only [hc] at hmem
                    by_cases htr : c.truthy
                    · rw [if_pos htr] at hmem
                      rcases mem_dictSet _ _ _ _ hmem with hpe | hpm
                      · right
                        refine ⟨root, dc, v, ?_, ?_, ?_, ?_⟩
                        · rw [hsp, hfn]
                        · rw [hpe]
                        · rw [hpe]
                        · rw [hpe]
                          exact htr
                      · exact Or.inl hpm
                    · rw [if_neg htr] at hmem
                      exact Or.inl hmem
              · rw [if_neg hfn] at hmem
                exact Or.inl hmem
        rcases hstep hin with hacc | ⟨root, dc, v, hrest⟩
        · exact Or.inl hacc
        · exact Or.inr ⟨obj, List.mem_cons_self obj rest, root, dc, v, hrest⟩
      · exact Or.inr ⟨obj', List.mem_cons_of_mem obj hobj', hex⟩

/-- C9: for every record the s3 worker publishes, `schema` reflects whether
the registry (built once per pass, only from keys of the form
`root/device_class/vendor/template.json` with truthy content) resolves the
record's (device_class, vendor); without a template `valid_schema` is `None`,
and with one it is exactly the validation outcome of the payload. -/
theorem schema_registry_resolution (validate : JContent → JContent → Bool)
    (listing : List S3Obj) (h : String) (r : S3Record)
    (hr : alookup h (get_s3_backups_data validate listing) = some r) :
    r.schema = (alookup (r.device_class ++ "/" ++ r.vendor) (templatesOf listing)).isSome ∧
    (r.schema = false → r.valid_schema = none) ∧
    (∀ tpl, alookup (r.device_class ++ "/" ++ r.vendor) (templatesOf listing) = some tpl →
        r.valid_schema = some (validate r.backup_json_data tpl)) ∧
    (∀ p ∈ templatesOf listing, ∃ obj ∈ listing, ∃ root dc v,
        pySplitSlash obj.key = [root, dc, v, "template.json"] ∧ p.1 = dc ++ "/" ++ v ∧
        obj.content = some p.2 ∧ p.2.truthy = true) := by
  have hinv := backups_foldl_inv validate (templatesOf listing) listing []
    (fun h' r' hr' => by simp [alookup] at hr') h r hr
  refine ⟨hinv.1, hinv.2.1, hinv.2.2, ?_⟩
  intro p hp
  rcases templates_foldl_from listing [] p hp with hnil | hex
  · exact absurd hnil (List.not_mem_nil p)
  · exact hex

/-- Witness for C9 on the two-object listing. -/
theorem schema_registry_resolution_witness :
    alookup "r1" (get_s3_backups_data exValidate exListing) = some exRecord ∧
    (exRecord.schema =
        (alookup (exRecord.device_class ++ "/" ++ exRecord.vendor)
          (templatesOf exListing)).isSome ∧
      (exRecord.schema = false → exRecord.valid_schema = none) ∧
      (∀ tpl, alookup (exRecord.device_class ++ "/" ++ exRecord.vendor)
            (templatesOf exListing) = some tpl →
          exRecord.valid_schema = some (exValidate exRecord.backup_json_data tpl)) ∧
      (∀ p ∈ templatesOf exListing, ∃ obj ∈ exListing, ∃ root dc v,
          pySplitSlash obj.key = [root, dc, v, "template.json"] ∧ p.1 = dc ++ "/" ++ v ∧
          obj.content = some p.2 ∧ p.2.truthy = true)) :=
  ⟨by simp [get_s3_backups_data, backupsStep, templatesOf, templatesStep, exListing,
      exValidate, exRecord, pySplitSlash, splitSlashAux, dictSet, alookup],
    schema_registry_resolution exValidate exListing "r1" exRecord
      (by simp [get_s3_backups_data, backupsStep, templatesOf, templatesStep, exListing,
        exValidate, exRecord, pySplitSlash, splitSlashAux, dictSet, alookup])⟩

/-! ## C10 -/

theorem barEntryStatus_eq_pieEntryStatus (now : ℚ) (oe : Option Entry) :
    barEntryStatus now oe = pieEntryStatus now oe := by
  cases oe with
  | none => rfl
  | some e =>
      unfold barEntryStatus pieEntryStatus
      rfl

theorem barLoop_eq_pieLoop (now : ℚ) (l : List (Option Entry)) (worst : ℤ) :
    barLoop now l worst = pieLoop now l worst := by
  induction l generalizing worst with
  | nil => rfl
  | cons oe rest ih =>
      unfold barLoop pieLoop
      rw [barEntryStatus_eq_pieEntryStatus]
      cases pieEntryStatus now oe with
      | ok n => exact ih (Max.max worst n)
      | caught => rfl
      | uncaught err => rfl

/-- Whenever the pie loop returns a value from a non-negative accumulator,
that value lies in [-3, 5]. -/
theorem pieLoop_ok_range (now : ℚ) (l : List (Option Entry)) (worst : ℤ)
    (hw : 0 ≤ worst) (n : ℤ) (hok : pieLoop now l worst = .ok n) :
    -3 ≤ n ∧ n ≤ 5 := by
  induction l generalizing worst with
  | nil =>
      unfold pieLoop at hok
      have hn := Except.ok.inj hok
      subst hn
      constructor
      · have h0 : (0 : ℤ) ≤ Min.min 5 worst := le_min (by norm_num) hw
        omega
      · exact min_le_left 5 worst
  | cons oe rest ih =>
      unfold pieLoop at hok
      cases hes : pieEntryStatus now oe with
      | ok m =>
          rw [hes] at hok
          exact ih (Max.max worst m) (le_trans hw (le_max_left worst m)) hok
      | caught =>
          rw [hes] at hok
          have hn := Except.ok.inj hok
          subst hn
          norm_num
      | uncaught err =>
          rw [hes] at hok
          exact absurd hok (by simp)

/-- C10: `backup_status_bar_chart_value` and `backup_status_pie_chart_value`
are extensionally equal — same result on every hostname, backups mapping and
current time, including which exceptions escape — and every integer either
returns lies in {-3, …, 5}. -/
theorem chart_values_equal (now : ℚ) (hostname : String) (b : Backups) :
    backup_status_bar_chart_value now hostname b =
      backup_status_pie_chart_value now hostname b ∧
    ∀ n : ℤ, backup_status_pie_chart_value now hostname b = .ok n → -3 ≤ n ∧ n ≤ 5 := by
  constructor
  · unfold backup_status_bar_chart_value backup_status_pie_chart_value
    cases alookup hostname b with
    | none => rfl
    | some info =>
        obtain ⟨dc, vd, sc, vs, bda, bjd, ex⟩ := info
        cases vs with
        | none => rfl
        | some ob =>
            cases ob with
            | none => rfl
            | some bb =>
                cases bb with
                | false => rfl
                | true =>
                    cases bjd with
                    | none => rfl
                    | some bd =>
                        obtain ⟨bl, bex⟩ := bd
                        cases bl with
                        | none => rfl
                        | some entries => exact barLoop_eq_pieLoop now entries 0
  · intro n hok
    unfold backup_status_pie_chart_value at hok
    cases halk : alookup hostname b with
    | none =>
        rw [halk] at hok
        have hn := Except.ok.inj hok
        subst hn
        norm_num
    | some info =>
        rw [halk] at hok
        obtain ⟨dc, vd, sc, vs, bda, bjd, ex⟩ := info
        cases vs with
        | none =>
            have hn := Except.ok.inj hok
            subst hn
            norm_num
        | some ob =>
            cases ob with
            | none =>
                have hn := Except.ok.inj hok
                subst hn
                norm_num
            | some bb =>
                cases bb with
                | false =>
                    have hn := Except.ok.inj hok
                    subst hn
                    norm_num
                | true =>
                    cases bjd with
                    | none => exact absurd hok (by simp)
                    | some bd =>
                        obtain ⟨bl, bex⟩ := bd
                        cases bl with
                        | none => exact absurd hok (by simp)
                        | some entries => exact pieLoop_ok_range now entries 0 le_rfl n hok

/-- Witness for C10 on an absent hostname (both functions give -3). -/
theorem chart_values_equal_witness :
    backup_status_bar_chart_value 0 "r1" [] = backup_status_pie_chart_value 0 "r1" [] ∧
    backup_status_pie_chart_value 0 "r1" [] = .ok (-3) ∧
    (-3 : ℤ) ≤ -3 ∧ (-3 : ℤ) ≤ 5 :=
  ⟨(chart_values_equal 0 "r1" []).1,
    by simp [backup_status_pie_chart_value, alookup],
    ((chart_values_equal 0 "r1" []).2 (-3)
      (by simp [backup_status_pie_chart_value, alookup])).1,
    ((chart_values_equal 0 "r1" []).2 (-3)
      (by simp [backup_status_pie_chart_value, alookup])).2⟩

end SL2
